import Mathlib

/-!
Shallow embedding of `src/Client/AzureIoT/AzureIoT/main.c` (iotaEHR client):
the connection lifecycle / backoff state machine, the device-twin apply
logic, the button edge detection, and the acquisition-and-averaging
pipeline, together with theorems checking the specification claims.

External collaborators (the Azure IoT transport, the JSON parser, GPIO and
I2C access, the heart-rate/SpO2 signal-processing function) are modelled as
opaque inputs, exactly as the specification scopes them out: a provisioning
attempt outcome is a `Bool` input, a parsed twin payload is an
`Option Json` input, a GPIO read is an `Option GPIO_Value_Type` input, a
signal-processing result is a `WindowResult` input.  C `float` arithmetic
in the acquisition accumulator is modelled by exact rational arithmetic.
-/

namespace IotaEHR

/-! ## Connection lifecycle constants (main.c lines 104-106) -/

/-- Constant `AzureIoTDefaultPollPeriodSeconds` (main.c line 104). -/
def AzureIoTDefaultPollPeriodSeconds : Int := 20

/-- Constant `AzureIoTMinReconnectPeriodSeconds` (main.c line 105). -/
def AzureIoTMinReconnectPeriodSeconds : Int := 10

/-- Constant `AzureIoTMaxReconnectPeriodSeconds` (main.c line 106). -/
def AzureIoTMaxReconnectPeriodSeconds : Int := 10 * 60

/-! ## Connection lifecycle state -/

/-- The mutable globals of the connection lifecycle manager:
`iothubAuthenticated` (line 62), `azureIoTPollPeriodSeconds` (line 107),
the period currently programmed into `azureTimerFd` via
`SetTimerFdToPeriod`, and whether `iothubClientHandle` (line 60) is
non-NULL. -/
structure ConnState where
  iothubAuthenticated : Bool
  azureIoTPollPeriodSeconds : Int
  azureTimerPeriod : Int
  clientHandle : Bool
deriving Repr, DecidableEq

/-- Embedding of `SetupAzureClient` (main.c lines 367-416).  The outcome of
`IoTHubDeviceClient_LL_CreateWithAzureSphereDeviceAuthProvisioning` is the
opaque input `provOk` (`provResult.result == AZURE_SPHERE_PROV_RESULT_OK`).
On failure (lines 378-398): if the poll period equals the default it is set
to the minimum reconnect period, otherwise it is doubled and capped at the
maximum; the timer is reprogrammed; `iothubAuthenticated` is not touched.
On success (lines 400-415): the poll period and timer return to the
default and `iothubAuthenticated` becomes true.  The `SetOption` /
callback-registration calls mutate none of the modelled state. -/
def SetupAzureClient (provOk : Bool) (s : ConnState) : ConnState :=
  if provOk then
    { iothubAuthenticated := true
      azureIoTPollPeriodSeconds := AzureIoTDefaultPollPeriodSeconds
      azureTimerPeriod := AzureIoTDefaultPollPeriodSeconds
      clientHandle := true }
  else
    let p : Int :=
      if s.azureIoTPollPeriodSeconds = AzureIoTDefaultPollPeriodSeconds then
        AzureIoTMinReconnectPeriodSeconds
      else
        let d := s.azureIoTPollPeriodSeconds * 2
        if d > AzureIoTMaxReconnectPeriodSeconds then AzureIoTMaxReconnectPeriodSeconds else d
    { iothubAuthenticated := s.iothubAuthenticated
      azureIoTPollPeriodSeconds := p
      azureTimerPeriod := p
      clientHandle := false }

/-- Connection state after `InitPeripheralsAndHandlers` (main.c lines
307-310): poll period and timer at the default, unauthenticated, no client
handle yet. -/
def initialConnState : ConnState :=
  { iothubAuthenticated := false
    azureIoTPollPeriodSeconds := AzureIoTDefaultPollPeriodSeconds
    azureTimerPeriod := AzureIoTDefaultPollPeriodSeconds
    clientHandle := false }

/-- The state after `n` consecutive failed provisioning attempts starting
from the freshly initialised state, with no intervening success. -/
def stateAfterFailures : Nat → ConnState
  | 0 => initialConnState
  | n + 1 => SetupAzureClient false (stateAfterFailures n)

/-- The backoff value claimed by the specification after `n ≥ 1`
consecutive failures: the minimum reconnect period on the first failure,
doubling on each subsequent consecutive failure, capped at the maximum.
This definition follows the wording of the spec, for comparison with the
source-derived `stateAfterFailures`. -/
def specClaimedBackoff (n : Nat) : Int :=
  min (AzureIoTMinReconnectPeriodSeconds * 2 ^ (n - 1)) AzureIoTMaxReconnectPeriodSeconds

/-! ## Connection lifecycle tick -/

/-- The observable outcome of one `AzureTimerEventHandler` invocation:
the resulting state, whether `SetupAzureClient` was called, and how many
times `IoTHubDeviceClient_LL_DoWork` was invoked. -/
structure TickResult where
  state : ConnState
  provisionAttempted : Bool
  doWorkCount : Nat
deriving Repr, DecidableEq

/-- Embedding of `AzureTimerEventHandler` (main.c lines 225-245), after a successful
`ConsumeTimerFdEvent`.  `networkQueryOk` models
`Networking_IsNetworkingReady` returning non-negative, `isNetworkReady`
the reachability it reports, `provOk` the outcome of the provisioning
attempt if one is made.  The handler attempts provisioning only when the
network query succeeds, the network is ready and the state is
unauthenticated; it then invokes `DoWork` once iff `iothubAuthenticated`
holds after that. -/
def AzureTimerEventHandler (networkQueryOk isNetworkReady provOk : Bool)
    (s : ConnState) : TickResult :=
  let s1 :=
    if networkQueryOk then
      if isNetworkReady && !s.iothubAuthenticated then SetupAzureClient provOk s else s
    else s
  { state := s1
    provisionAttempted := networkQueryOk && (isNetworkReady && !s.iothubAuthenticated)
    doWorkCount := if s1.iothubAuthenticated then 1 else 0 }

/-! ## Connection status callback -/

/-- The `IOTHUB_CLIENT_CONNECTION_STATUS` argument of the status
callback. -/
inductive ConnectionStatus where
  | authenticated
  | unauthenticated
deriving Repr, DecidableEq

/-- Embedding of `HubConnectionStatusCallback` (main.c lines 344-360).
`iothubAuthenticated` becomes `result == IOTHUB_CLIENT_CONNECTION_AUTHENTICATED`;
no other modelled state is touched.  When the result is authenticated, two
string reported-property sends (`max30102_revision`, `max30102_part_id`)
are enqueued; their formatted values are the opaque inputs `revStr` and
`pidStr`. -/
def HubConnectionStatusCallback (result : ConnectionStatus)
    (revStr pidStr : String) (s : ConnState) : ConnState × List (String × String) :=
  let auth := result = ConnectionStatus.authenticated
  ({ s with iothubAuthenticated := auth },
   if auth then [("max30102_revision", revStr), ("max30102_part_id", pidStr)] else [])

/-! ## JSON model (parson, scoped out as an opaque parse step) -/

/-- A parsed JSON value, the shape `parson` hands back.  The claims only
need objects, booleans and strings; numbers stand for any non-boolean,
non-string, non-object member. -/
inductive Json where
  | jnull : Json
  | jbool : Bool → Json
  | jnum : Int → Json
  | jstr : String → Json
  | jobj : List (String × Json) → Json
deriving Repr

/-- Model of `json_object_get_value`: look up a member by name. -/
def json_object_get_value (o : List (String × Json)) (k : String) : Option Json :=
  (o.find? (fun p => p.1 == k)).map Prod.snd

/-- Model of `json_value_get_object`: the member list if the value is an object. -/
def json_value_get_object : Json → Option (List (String × Json))
  | Json.jobj o => some o
  | _ => none

/-- Model of `json_object_dotget_object`: member by name, as an object (the names
used in main.c contain no dots, so dotted traversal degenerates to a plain
lookup). -/
def json_object_dotget_object (o : List (String × Json)) (k : String) :
    Option (List (String × Json)) :=
  match json_object_get_value o k with
  | some v => json_value_get_object v
  | none => none

/-- Model of `json_object_get_boolean`: `1`/`0` for a boolean member, `-1` when the
member is missing or not a boolean (parson error convention). -/
def json_object_get_boolean (o : List (String × Json)) (k : String) : Int :=
  match json_object_get_value o k with
  | some (Json.jbool b) => if b then 1 else 0
  | _ => -1

/-- Model of `json_object_get_string`: the string member, `NULL` (none)
otherwise. -/
def json_object_get_string (o : List (String × Json)) (k : String) : Option String :=
  match json_object_get_value o k with
  | some (Json.jstr s) => some s
  | _ => none

/-! ## Twin synchronizer -/

/-- A GPIO level.  The LED is wired active-low: `low` means lit. -/
inductive GPIO_Value_Type where
  | low
  | high
deriving Repr, DecidableEq

/-- The local state `TwinCallback` can touch: `statusLedOn` (line 89), the
level written to `deviceTwinStatusLedGpioFd`, and `nprId` (line 110). -/
structure TwinState where
  statusLedOn : Bool
  ledOutput : GPIO_Value_Type
  nprId : String
deriving Repr, DecidableEq

/-- The reported-property string built by `TwinReportBoolState`
(main.c line 585): `{"<name>":<true|false>}`. -/
def TwinReportBoolState (name : String) (value : Bool) : String :=
  "\x7b\"" ++ name ++ "\":" ++ (if value then "true" else "false") ++ "\x7d"

/-- The reported-property string built by `TwinReportStringState`
(main.c line 615): `{"<name>":"<value>"}`. -/
def TwinReportStringState (name : String) (value : String) : String :=
  "\x7b\"" ++ name ++ "\":\"" ++ value ++ "\"\x7d"

/-- Embedding of `TwinCallback` (main.c lines 424-472).  The opaque parse step
(`json_parse_string`) is the input: `none` models a payload that fails to
parse, in which case the function jumps to cleanup (lines 441-444).
Otherwise: the `desired` sub-object is used when present, else the root
(lines 446-450); a present `StatusLED` object sets `statusLedOn` to the C
cast `(bool)json_object_get_boolean(LEDState, "value")` — nonzero means
true, so parson's `-1` error result is coerced to true — drives the LED
(low iff on) and enqueues a boolean reported-property send (lines
453-459); a present `nprId` object with a string `value` stores it and
enqueues two string reported-property sends (lines 461-466).  Returns the
new state and the enqueued sends in order. -/
def TwinCallback (parsed : Option Json) (st : TwinState) :
    TwinState × List String :=
  match parsed with
  | none => (st, [])
  | some root =>
    let rootObject := (json_value_get_object root).getD []
    let desiredProperties := (json_object_dotget_object rootObject "desired").getD rootObject
    let step1 :=
      match json_object_dotget_object desiredProperties "StatusLED" with
      | some LEDState =>
        let b : Bool := json_object_get_boolean LEDState "value" != 0
        ({ st with
            statusLedOn := b
            ledOutput := if b then GPIO_Value_Type.low else GPIO_Value_Type.high },
         [TwinReportBoolState "StatusLED" b])
      | none => (st, [])
    match json_object_dotget_object desiredProperties "nprId" with
    | some nprIdState =>
      match json_object_get_string nprIdState "value" with
      | some v =>
        ({ step1.1 with nprId := v },
         step1.2 ++ [TwinReportStringState "nprId" v,
                     TwinReportStringState "nprId_property" v])
      | none => step1
    | none => step1

/-- The desired payload `{"StatusLED":{"value":true}}`. -/
def statusLedTruePayload : Json :=
  Json.jobj [("StatusLED", Json.jobj [("value", Json.jbool true)])]

/-- A desired payload whose `StatusLED` object has no `value` member. -/
def statusLedMissingValuePayload : Json :=
  Json.jobj [("StatusLED", Json.jobj [])]

/-- A desired payload whose `StatusLED.value` member is not a boolean. -/
def statusLedNonBoolValuePayload : Json :=
  Json.jobj [("StatusLED", Json.jobj [("value", Json.jstr "yes")])]

/-! ## Button edge detection and main loop -/

/-- Embedding of `IsButtonPressed` (main.c lines 654-669).  The GPIO read is the opaque
input: `none` models `GPIO_GetValue` failing (nonzero result), in which
case no press is reported, the stored level is untouched, and
`terminationRequired` becomes true.  On a successful read the press is
detected iff the new level differs from the stored one and is low, and the
stored level is updated.  Returns
(pressed, updated stored level, updated terminationRequired). -/
def IsButtonPressed (readResult : Option GPIO_Value_Type)
    (oldState : GPIO_Value_Type) (terminationRequired : Bool) :
    Bool × GPIO_Value_Type × Bool :=
  match readResult with
  | none => (false, oldState, true)
  | some newState =>
    ((newState != oldState) && (newState == GPIO_Value_Type.low),
     newState, terminationRequired)

/-- Number of trigger events over a scripted sequence of successfully read
poll levels, threading the stored level through `IsButtonPressed`. -/
def countTriggers : List GPIO_Value_Type → GPIO_Value_Type → Nat
  | [], _ => 0
  | l :: rest, oldState =>
    let r := IsButtonPressed (some l) oldState false
    (if r.1 then 1 else 0) + countTriggers rest r.2.1

/-- The main dispatcher loop (main.c lines 196-200):
`while (!terminationRequired) { WaitForEventAndCallHandler(...); }`.
Each list entry says whether that iteration's handler (or a failed wait)
sets `terminationRequired`; the result is the number of iterations
executed before the loop exits. -/
def mainLoopIterations : List Bool → Nat
  | [] => 0
  | setsTermination :: rest =>
    1 + (if setsTermination then 0 else mainLoopIterations rest)

/-! ## Telemetry reporter -/

/-- The message string built by `SendTelemetry` (main.c lines 535-539)
from the template `"{ \"%s\": \"%s\" }"` — note the spaces after the
opening brace, after the colon and before the closing brace. -/
def SendTelemetry (key value : String) : String :=
  "\x7b \"" ++ key ++ "\": \"" ++ value ++ "\" \x7d"

/-! ## Acquisition pipeline -/

/-- One output of `rf_heart_rate_and_oxygen_saturation` for a completed
sample window: heart-rate value (`int32_t n_heart_rate`), SpO2 value
(`float n_spo2`, modelled as an exact rational), and the two validity
flags (`ch_hr_valid`, `ch_spo2_valid`).  The signal-processing function is
an external collaborator, so windows arrive as opaque results. -/
structure WindowResult where
  n_heart_rate : Int
  n_spo2 : ℚ
  ch_hr_valid : Bool
  ch_spo2_valid : Bool
deriving Repr, DecidableEq

/-- A window contributes iff both validity flags are true
(main.c line 721: `if (ch_hr_valid && ch_spo2_valid)`). -/
def windowValid (w : WindowResult) : Bool :=
  w.ch_hr_valid && w.ch_spo2_valid

/-- The running accumulator of `SendTelemetryButtonHandler`:
`average_hr` and `average_spo2` hold running sums during the loop (the
source reuses the names for the sums), `nbr_readings` counts the valid
windows. -/
structure Accumulator where
  average_hr : Int
  average_spo2 : ℚ
  nbr_readings : Int
deriving Repr, DecidableEq

/-- One pass of the acquisition loop body for a completed window
(main.c lines 721-729): accumulate iff both validity flags are true,
otherwise the window contributes nothing. -/
def accumulateWindow (acc : Accumulator) (w : WindowResult) : Accumulator :=
  if windowValid w then
    { average_hr := acc.average_hr + w.n_heart_rate
      average_spo2 := acc.average_spo2 + w.n_spo2
      nbr_readings := acc.nbr_readings + 1 }
  else acc

/-- The accumulator after a run that produced the given window results,
starting from `average_hr = nbr_readings = 0`, `average_spo2 = 0.0`
(main.c lines 702-703). -/
def runAccumulate (ws : List WindowResult) : Accumulator :=
  ws.foldl accumulateWindow { average_hr := 0, average_spo2 := 0, nbr_readings := 0 }

/-- Two-digit decimal padding for the fractional part of `%3.2f`. -/
def padTwo (n : Nat) : String :=
  if n < 10 then "0" ++ toString n else toString n

/-- Model of `snprintf(..., "%3.2f", x)` for a nonnegative value: the
value rounded to hundredths (half rounding up, computed as the floor of
`q * 100 + 1/2` via floor division on the reduced fraction), printed with
exactly two fractional digits.  Faithful whenever the float value is an
exact multiple of 1/100, as in the claims checked below. -/
def formatFixed2 (q : ℚ) : String :=
  let cents : Int := ⌊q * 100 + 1 / 2⌋
  toString (Int.tdiv cents 100) ++ "." ++ padTwo (Int.natAbs (Int.emod cents 100))

/-- Finalization of `SendTelemetryButtonHandler` (main.c lines 734-750):
if at least one window was valid, send `Heart_rate` with the C integer
division `average_hr / nbr_readings` (`%d`) and `SpO2` with
`average_spo2 / (float)nbr_readings` formatted `%3.2f`; otherwise send
nothing. -/
def finalizeTelemetry (acc : Accumulator) : List (String × String) :=
  if acc.nbr_readings > 0 then
    [("Heart_rate", toString (Int.tdiv acc.average_hr acc.nbr_readings)),
     ("SpO2", formatFixed2 (acc.average_spo2 / (acc.nbr_readings : ℚ)))]
  else []

/-- The telemetry messages a button-triggered acquisition run hands to the
transport, each built by `SendTelemetry`. -/
def telemetryMessages (ws : List WindowResult) : List String :=
  (finalizeTelemetry (runAccumulate ws)).map (fun kv => SendTelemetry kv.1 kv.2)

/-- A window result with heart-rate 72 and SpO2 98.5, both flags valid. -/
def validWindow72 : WindowResult :=
  { n_heart_rate := 72, n_spo2 := (197 : ℚ) / 2, ch_hr_valid := true, ch_spo2_valid := true }

/-! ## Shared lemmas -/

/-- Folding `accumulateWindow` over a window list adds the heart-rate sum,
SpO2 sum and count of exactly the windows with both validity flags true to
the starting accumulator. -/
theorem foldl_accumulateWindow (ws : List WindowResult) (acc : Accumulator) :
    ws.foldl accumulateWindow acc =
      { average_hr := acc.average_hr + ((ws.filter windowValid).map WindowResult.n_heart_rate).sum
        average_spo2 := acc.average_spo2 + ((ws.filter windowValid).map WindowResult.n_spo2).sum
        nbr_readings := acc.nbr_readings + ((ws.filter windowValid).length : Int) } := by
  induction ws generalizing acc with
  | nil => simp
  | cons w ws ih =>
    rw [List.foldl_cons, ih, accumulateWindow]
    by_cases h : windowValid w
    · simp only [if_pos h, List.filter_cons_of_pos h, List.map_cons, List.sum_cons,
        List.length_cons, Accumulator.mk.injEq]
      refine ⟨by ring, by ring, ?_⟩
      push_cast
      ring
    · simp only [if_neg h, List.filter_cons_of_neg h]

/-- The SpO2 average 98.5 prints as "98.50" under `%3.2f`. -/
theorem formatFixed2_197_half : formatFixed2 ((197 : ℚ) / 2) = "98.50" := by
  have h : ⌊(197 : ℚ) / 2 * 100 + 1 / 2⌋ = (9850 : Int) := by
    rw [Int.floor_eq_iff]
    norm_num
  simp only [formatFixed2, h]
  decide

/-! ## Claim theorems -/

/-- C1: the specification claims BackoffPeriod after the n-th consecutive
failure equals min(Min * 2^(n-1), Max) — doubling up to Max — and that a
success resets it to Default.  The code instead oscillates: the doubled
period 20 equals Default, so the equals-Default branch resets it to Min
again, and the trace over failures 0..6 is [20,10,20,10,20,10,20],
deviating from the claimed value already at the third failure (10 ≠ 40).
The success reset to Default does hold. -/
theorem C1_backoff_code_eval :
    ((List.range 7).map (fun n => (stateAfterFailures n).azureIoTPollPeriodSeconds)
        = [20, 10, 20, 10, 20, 10, 20]) ∧
    (stateAfterFailures 3).azureIoTPollPeriodSeconds = 10 ∧
    specClaimedBackoff 3 = 40 ∧
    (stateAfterFailures 3).azureIoTPollPeriodSeconds ≠ specClaimedBackoff 3 ∧
    (SetupAzureClient true (stateAfterFailures 3)).azureIoTPollPeriodSeconds
        = AzureIoTDefaultPollPeriodSeconds := by
  refine ⟨by decide, by decide, by decide, by decide, by decide⟩

/-- C2 counterexample: a tick whose network reachability is reported false
is claimed to perform no action at all, but when the state is
authenticated the code still invokes `IoTHubDeviceClient_LL_DoWork`
once. -/
theorem C2_counterexample :
    (AzureTimerEventHandler true false true
        { iothubAuthenticated := true
          azureIoTPollPeriodSeconds := 20
          azureTimerPeriod := 20
          clientHandle := true }).doWorkCount ≠ 0 := by decide

/-- C2 (amended): for every tick in which network reachability is reported
false, no provisioning attempt is made and the state (ConnectionState,
BackoffPeriod, timer period) is unchanged, but the background-work step is
still invoked exactly once when the state is Authenticated (and not at
all otherwise). -/
theorem C2_amended_tick_network_down (networkQueryOk provOk : Bool) (s : ConnState) :
    AzureTimerEventHandler networkQueryOk false provOk s =
      { state := s
        provisionAttempted := false
        doWorkCount := if s.iothubAuthenticated then 1 else 0 } := by
  cases networkQueryOk <;> rfl

/-- C3: for every acquisition run, the accumulator sums the heart-rate and
SpO2 values of exactly the windows with both validity flags true, with
count equal to their number v; the finalized telemetry divides both sums
by exactly v, and when v = 0 the run performs zero telemetry sends. -/
theorem C3_accumulator (ws : List WindowResult) :
    runAccumulate ws =
      { average_hr := ((ws.filter windowValid).map WindowResult.n_heart_rate).sum
        average_spo2 := ((ws.filter windowValid).map WindowResult.n_spo2).sum
        nbr_readings := ((ws.filter windowValid).length : Int) } ∧
    finalizeTelemetry (runAccumulate ws) =
      (if (ws.filter windowValid).length = 0 then []
       else
         [("Heart_rate",
           toString (Int.tdiv ((ws.filter windowValid).map WindowResult.n_heart_rate).sum
             ((ws.filter windowValid).length : Int))),
          ("SpO2",
           formatFixed2 (((ws.filter windowValid).map WindowResult.n_spo2).sum /
             ((ws.filter windowValid).length : ℚ)))]) := by
  have h1 : runAccumulate ws =
      { average_hr := ((ws.filter windowValid).map WindowResult.n_heart_rate).sum
        average_spo2 := ((ws.filter windowValid).map WindowResult.n_spo2).sum
        nbr_readings := ((ws.filter windowValid).length : Int) } := by
    rw [runAccumulate, foldl_accumulateWindow]
    simp
  refine ⟨h1, ?_⟩
  rw [h1]
  simp only [finalizeTelemetry]
  by_cases h : (ws.filter windowValid).length = 0
  · simp [h]
  · rw [if_pos (by exact_mod_cast Nat.pos_of_ne_zero h), if_neg h]
    norm_cast

/-- C4: a button press is detected exactly on a High-to-Low transition —
never on Low-to-Low (held), High-to-High, or Low-to-High — and the
scripted poll sequence [H,H,L,L,H,L] starting from last-observed High
yields exactly 2 trigger events. -/
theorem C4_button_edge (oldState newState : GPIO_Value_Type) :
    ((IsButtonPressed (some newState) oldState false).1 = true ↔
      oldState = GPIO_Value_Type.high ∧ newState = GPIO_Value_Type.low) ∧
    countTriggers
      [GPIO_Value_Type.high, GPIO_Value_Type.high, GPIO_Value_Type.low,
       GPIO_Value_Type.low, GPIO_Value_Type.high, GPIO_Value_Type.low]
      GPIO_Value_Type.high = 2 := by
  refine ⟨?_, by decide⟩
  cases oldState <;> cases newState <;> decide

/-- C5 counterexample: the claim says an all-valid run with heart-rate 72
and SpO2 98.5 produces exactly the sends
`{"Heart_rate":"72"}` and `{"SpO2":"98.50"}`; the messages actually built
from the source template `"{ \"%s\": \"%s\" }"` carry spaces after the
opening brace, after the colon and before the closing brace, so they are
not those strings. -/
theorem C5_counterexample :
    telemetryMessages [validWindow72] ≠
      ["\x7b\"Heart_rate\":\"72\"\x7d", "\x7b\"SpO2\":\"98.50\"\x7d"] := by
  decide

/-- C5 (amended): every telemetry send is the flat single-key-value
message `{ "<key>": "<value>" }` (the source template, spaces included)
with the value string-encoded, and a run of n ≥ 1 windows, all valid with
heart-rate 72 and SpO2 98.5, produces exactly the two sends
`{ "Heart_rate": "72" }` and `{ "SpO2": "98.50" }`. -/
theorem C5_amended_scenario (n : Nat) (h : 0 < n) :
    telemetryMessages (List.replicate n validWindow72) =
      ["\x7b \"Heart_rate\": \"72\" \x7d", "\x7b \"SpO2\": \"98.50\" \x7d"] := by
  have hfilter : (List.replicate n validWindow72).filter windowValid
      = List.replicate n validWindow72 :=
    List.filter_eq_self.mpr (fun a ha => by
      rw [List.eq_of_mem_replicate ha]; decide)
  have hacc : runAccumulate (List.replicate n validWindow72) =
      { average_hr := (n : Int) * 72
        average_spo2 := (n : ℚ) * ((197 : ℚ) / 2)
        nbr_readings := (n : Int) } := by
    rw [runAccumulate, foldl_accumulateWindow, hfilter]
    simp [List.map_replicate, List.sum_replicate, validWindow72, nsmul_eq_mul]
  unfold telemetryMessages
  rw [hacc]
  simp only [finalizeTelemetry]
  rw [if_pos (by exact_mod_cast h)]
  have hdiv : Int.tdiv ((n : Int) * 72) (n : Int) = 72 :=
    Int.mul_tdiv_cancel_left _ (by exact_mod_cast h.ne')
  have hq : ((n : ℚ) * ((197 : ℚ) / 2)) / (((n : Int) : ℚ)) = (197 : ℚ) / 2 := by
    rw [Int.cast_natCast]
    exact mul_div_cancel_left₀ _ (by exact_mod_cast h.ne')
  rw [hdiv, hq, formatFixed2_197_half]
  decide

/-- C5 witness: the amended scenario at the concrete run length n = 3. -/
theorem C5_amended_scenario_witness :
    0 < 3 ∧
    telemetryMessages (List.replicate 3 validWindow72) =
      ["\x7b \"Heart_rate\": \"72\" \x7d", "\x7b \"SpO2\": \"98.50\" \x7d"] :=
  ⟨by decide, C5_amended_scenario 3 (by decide)⟩

/-- C6: a connection-status notification whose result is not
authenticated sets the state to Unauthenticated and leaves every other
modelled field — in particular BackoffPeriod and the programmed timer
period — unchanged; the successful provisioning path is what resets
BackoffPeriod to Default. -/
theorem C6_status_callback_frame (result : ConnectionStatus)
    (revStr pidStr : String) (s : ConnState)
    (h : result ≠ ConnectionStatus.authenticated) :
    (HubConnectionStatusCallback result revStr pidStr s).1 =
      { s with iothubAuthenticated := false } ∧
    (HubConnectionStatusCallback result revStr pidStr s).2 = [] ∧
    (SetupAzureClient true s).azureIoTPollPeriodSeconds
      = AzureIoTDefaultPollPeriodSeconds := by
  cases result with
  | authenticated => exact absurd rfl h
  | unauthenticated => exact ⟨rfl, rfl, rfl⟩

/-- C6 witness: the frame property at a concrete de-authentication
notification arriving in an authenticated state with backoff 40 s. -/
theorem C6_status_callback_frame_witness :
    (HubConnectionStatusCallback ConnectionStatus.unauthenticated "0x03" "0x15"
        { iothubAuthenticated := true
          azureIoTPollPeriodSeconds := 40
          azureTimerPeriod := 40
          clientHandle := true }).1 =
      { iothubAuthenticated := false
        azureIoTPollPeriodSeconds := 40
        azureTimerPeriod := 40
        clientHandle := true } ∧
    (HubConnectionStatusCallback ConnectionStatus.unauthenticated "0x03" "0x15"
        { iothubAuthenticated := true
          azureIoTPollPeriodSeconds := 40
          azureTimerPeriod := 40
          clientHandle := true }).2 = [] ∧
    (SetupAzureClient true
        { iothubAuthenticated := true
          azureIoTPollPeriodSeconds := 40
          azureTimerPeriod := 40
          clientHandle := true }).azureIoTPollPeriodSeconds
      = AzureIoTDefaultPollPeriodSeconds :=
  C6_status_callback_frame ConnectionStatus.unauthenticated "0x03" "0x15"
    { iothubAuthenticated := true
      azureIoTPollPeriodSeconds := 40
      azureTimerPeriod := 40
      clientHandle := true } (by decide)

/-- C7: a twin-update payload that fails to parse leaves the local state
(statusLedOn, LED output, nprId) unchanged and enqueues zero
reported-property sends. -/
theorem C7_malformed_payload_noop (st : TwinState) :
    TwinCallback none st = (st, []) := rfl

/-- C8: applying the desired payload StatusLED.value = true twice yields
the same actuator state as applying it once, while producing two (not
deduplicated) reported-property sends in total. -/
theorem C8_twin_idempotent (st : TwinState) :
    (TwinCallback (some statusLedTruePayload)
        (TwinCallback (some statusLedTruePayload) st).1).1 =
      (TwinCallback (some statusLedTruePayload) st).1 ∧
    (TwinCallback (some statusLedTruePayload) st).2 ++
        (TwinCallback (some statusLedTruePayload)
          (TwinCallback (some statusLedTruePayload) st).1).2 =
      [TwinReportBoolState "StatusLED" true, TwinReportBoolState "StatusLED" true] :=
  ⟨rfl, rfl⟩

/-- C9: a desired payload whose StatusLED object has a missing or
non-boolean value member is not rejected: parson's -1 error result is
coerced to true, so statusLedOn becomes true, the LED is driven on (GPIO
low), and a reported-property send with value true is enqueued. -/
theorem C9_invalid_value_coerced_true (st : TwinState) :
    TwinCallback (some statusLedMissingValuePayload) st =
      ({ st with statusLedOn := true, ledOutput := GPIO_Value_Type.low },
       [TwinReportBoolState "StatusLED" true]) ∧
    TwinCallback (some statusLedNonBoolValuePayload) st =
      ({ st with statusLedOn := true, ledOutput := GPIO_Value_Type.low },
       [TwinReportBoolState "StatusLED" true]) :=
  ⟨rfl, rfl⟩

/-- C10: a GPIO read failure during a button poll reports no press,
leaves the stored level untouched, and sets the termination flag; and a
main loop whose n-th iteration sets the termination flag executes exactly
n iterations and then exits instead of retrying. -/
theorem C10_gpio_failure_fatal (oldState : GPIO_Value_Type) (t : Bool)
    (n : Nat) (post : List Bool) :
    IsButtonPressed none oldState t = (false, oldState, true) ∧
    mainLoopIterations (List.replicate n false ++ true :: post) = n + 1 := by
  refine ⟨rfl, ?_⟩
  induction n with
  | zero => rfl
  | succ k ih =>
    rw [List.replicate_succ, List.cons_append, mainLoopIterations,
      if_neg (by decide), ih]
    omega

end IotaEHR
